import Mathlib

/-!
Verification of the auth-service core of `rust_bootcamp_microservices`.

The Auth Orchestrator (`src/auth-service/auth.rs`) is embedded as pure
state-passing functions.  The two leaf stores (`users.rs`, `sessions.rs`)
are declared and called by the orchestrator but their implementation files
are not part of the sources at hand, so they are modelled from the spec
(§4.1, §4.2).  Each orchestrator operation additionally returns the list
of store calls it performed, in order, so that ordering and frame
properties can be stated.
-/

namespace RustAuth

/-- A credential record of the User Store: (username, identity,
password-verification material).  The identity field is called `uuid`
as in the orchestrator source (`get_user_uuid`). -/
structure UserRecord where
  username : String
  password : String
  uuid : String
deriving Repr, DecidableEq

/-- Modelled from the spec: the User Store (`users.rs` is absent from the
sources; §4.1) owns the set of Credential Records, here an association
list keyed by username. -/
abbrev UsersStore := List UserRecord

/-- Modelled from the spec: the Session Store (`sessions.rs` is absent
from the sources; §4.2) maps an opaque token to an identity. -/
abbrev SessionsStore := List (String × String)

/-- Modelled from the spec: `GetUserIdentity(username, password)`
(§4.1), named `get_user_uuid` as at its call site in `auth.rs`.
Looks up the record by username; if absent returns nothing; if present
compares the supplied password by exact string equality (no hashing) and
returns the identity only on an exact match. -/
def get_user_uuid (store : UsersStore) (username password : String) :
    Option String :=
  match store.find? (fun r => r.username == username) with
  | none => none
  | some r => if r.password == password then some r.uuid else none

/-- Modelled from the spec: `CreateUser(username, password)` (§4.1).
Fails with `UsernameExists` when a record with the same username is
already present; otherwise stores a record carrying a freshly generated
identity.  Fresh-identity generation is nondeterministic in the source
(a random identifier), so the fresh value is passed as the `uuid`
argument; the successor store is returned alongside the success signal. -/
def create_user (store : UsersStore) (username password uuid : String) :
    Except String UsersStore :=
  if store.any (fun r => r.username == username) then
    Except.error "UsernameExists"
  else
    Except.ok ({ username := username, password := password, uuid := uuid } :: store)

/-- Modelled from the spec: `CreateSession(identity)` (§4.2).  Generates
a new token (nondeterministic randomness, passed as the `freshToken`
argument), inserts token→identity, and returns the token. -/
def create_session (store : SessionsStore) (uuid freshToken : String) :
    String × SessionsStore :=
  (freshToken, (freshToken, uuid) :: store)

/-- Modelled from the spec: `DeleteSession(token)` (§4.2).  Removes the
Session record for `token` if present; unknown or empty tokens are a
no-op and never an error. -/
def delete_session (store : SessionsStore) (token : String) : SessionsStore :=
  store.filter (fun s => !(s.1 == token))

/-- The wire status carried by every response (`StatusCode` in the
generated protobuf types used by `auth.rs`). -/
inductive StatusCode
  | success
  | failure
deriving Repr, DecidableEq

/-- `SignInRequest` of `auth.rs`. -/
structure SignInRequest where
  username : String
  password : String
deriving Repr, DecidableEq

/-- `SignInResponse` of `auth.rs`. -/
structure SignInResponse where
  status_code : StatusCode
  user_uuid : String
  session_token : String
deriving Repr, DecidableEq

/-- `SignUpRequest` of `auth.rs`. -/
structure SignUpRequest where
  username : String
  password : String
deriving Repr, DecidableEq

/-- `SignUpResponse` of `auth.rs`: it carries only a status code, no
identity and no token field exists in the message type. -/
structure SignUpResponse where
  status_code : StatusCode
deriving Repr, DecidableEq

/-- `SignOutRequest` of `auth.rs`. -/
structure SignOutRequest where
  session_token : String
deriving Repr, DecidableEq

/-- `SignOutResponse` of `auth.rs`. -/
structure SignOutResponse where
  status_code : StatusCode
deriving Repr, DecidableEq

/-- A transport-level fault (`tonic::Status`): the error side of each
handler's return type.  The handlers in `auth.rs` never construct one. -/
structure TonicStatus where
  message : String
deriving Repr, DecidableEq

/-- The shared state held by `AuthService`: the two stores. -/
structure AuthState where
  users_service : UsersStore
  sessions_service : SessionsStore
deriving Repr, DecidableEq

/-- One call into a store, recorded in order of execution so that call
ordering and frame properties of the orchestrator can be stated. -/
inductive StoreEvent
  | getUserUuid (username password : String)
  | createUser (username password : String)
  | createSession (uuid : String)
  | deleteSession (token : String)
deriving Repr, DecidableEq

/-- `true` exactly for the events that touch the User Store. -/
def isUserStoreEvent : StoreEvent → Bool
  | StoreEvent.getUserUuid _ _ => true
  | StoreEvent.createUser _ _ => true
  | _ => false

/-- `true` exactly for the events that touch the Session Store. -/
def isSessionStoreEvent : StoreEvent → Bool
  | StoreEvent.createSession _ => true
  | StoreEvent.deleteSession _ => true
  | _ => false

/-- `AuthService::sign_in` of `auth.rs`: look the user up in
`users_service`; on `None` reply `Failure` with both strings empty and
return without touching `sessions_service`; on `Some uuid` create a
session and reply `Success` with the uuid and the new token.  The
handler returns `Ok` on every path; the fresh random token drawn inside
`create_session` is passed as `freshToken`. -/
def sign_in (st : AuthState) (req : SignInRequest) (freshToken : String) :
    Except TonicStatus SignInResponse × AuthState × List StoreEvent :=
  match get_user_uuid st.users_service req.username req.password with
  | none =>
      (Except.ok { status_code := StatusCode.failure, user_uuid := "", session_token := "" },
       st,
       [StoreEvent.getUserUuid req.username req.password])
  | some user_uuid =>
      let res := create_session st.sessions_service user_uuid freshToken
      (Except.ok { status_code := StatusCode.success, user_uuid := user_uuid,
                   session_token := res.1 },
       { st with sessions_service := res.2 },
       [StoreEvent.getUserUuid req.username req.password,
        StoreEvent.createSession user_uuid])

/-- `AuthService::sign_up` of `auth.rs`: call `create_user` once; map
`Ok` to `Success` and any `Err` to `Failure`.  The handler returns `Ok`
on every path; the fresh identity drawn inside `create_user` is passed
as `freshUuid`. -/
def sign_up (st : AuthState) (req : SignUpRequest) (freshUuid : String) :
    Except TonicStatus SignUpResponse × AuthState × List StoreEvent :=
  match create_user st.users_service req.username req.password freshUuid with
  | Except.ok users2 =>
      (Except.ok { status_code := StatusCode.success },
       { st with users_service := users2 },
       [StoreEvent.createUser req.username req.password])
  | Except.error _ =>
      (Except.ok { status_code := StatusCode.failure },
       st,
       [StoreEvent.createUser req.username req.password])

/-- `AuthService::sign_out` of `auth.rs`: unconditionally call
`delete_session` with the supplied token, then reply `Success`. -/
def sign_out (st : AuthState) (req : SignOutRequest) :
    Except TonicStatus SignOutResponse × AuthState × List StoreEvent :=
  (Except.ok { status_code := StatusCode.success },
   { st with sessions_service := delete_session st.sessions_service req.session_token },
   [StoreEvent.deleteSession req.session_token])

/-- The User Store invariant of §3: no two credential records share a
username. -/
def usernamesUnique (s : UsersStore) : Prop :=
  (s.map UserRecord.username).Nodup

instance (s : UsersStore) : Decidable (usernamesUnique s) := by
  unfold usernamesUnique
  infer_instance

/-- Whether the Session Store holds a live session for `token`. -/
def hasLiveSession (s : SessionsStore) (token : String) : Bool :=
  s.any (fun p => p.1 == token)

/-- A concrete User Store with one registered user, used to instantiate
the hypotheses of the theorems below. -/
def demoUsers : UsersStore :=
  [{ username := "alice", password := "pw1", uuid := "uuid-alice" }]

/-- A concrete service state: one registered user, one live session. -/
def demoState : AuthState :=
  { users_service := demoUsers,
    sessions_service := [("tokA", "uuid-alice")] }

/-- If no record with username `u` carries password `p`, the lookup
returns nothing (covers both the unknown-username and the
wrong-password case). -/
theorem get_user_uuid_eq_none (s : UsersStore) (u p : String)
    (h : ∀ r ∈ s, r.username = u → r.password ≠ p) :
    get_user_uuid s u p = none := by
  unfold get_user_uuid
  cases hf : s.find? (fun r => r.username == u) with
  | none => rfl
  | some r =>
      have hm : r ∈ s := List.mem_of_find?_eq_some hf
      have hu : r.username = u := by simpa using List.find?_some hf
      have hp : r.password ≠ p := h r hm hu
      simp [hp]

/-- A successful lookup comes from a record of the store whose username,
password and identity are the ones looked up and returned. -/
theorem get_user_uuid_some (s : UsersStore) (u p id : String)
    (h : get_user_uuid s u p = some id) :
    ∃ r ∈ s, r.username = u ∧ r.password = p ∧ r.uuid = id := by
  unfold get_user_uuid at h
  cases hf : s.find? (fun r => r.username == u) with
  | none => rw [hf] at h; exact absurd h (by simp)
  | some r =>
      rw [hf] at h
      have hm : r ∈ s := List.mem_of_find?_eq_some hf
      have hu : r.username = u := by simpa using List.find?_some hf
      by_cases hp : r.password = p
      · refine ⟨r, hm, hu, hp, ?_⟩
        simp only [hp, beq_self_eq_true, if_true, Option.some.injEq] at h
        exact h
      · simp [hp] at h

/-- After `delete_session`, the store holds no live session for the
deleted token. -/
theorem hasLiveSession_delete_session (s : SessionsStore) (t : String) :
    hasLiveSession (delete_session s t) t = false := by
  simp only [hasLiveSession, delete_session, Bool.eq_false_iff, ne_eq,
    List.any_eq_true, List.mem_filter, not_exists, not_and]
  rintro x ⟨hx, hne⟩ heq
  rw [heq] at hne
  simp at hne

/-- Deleting a token a second time is a no-op on the store. -/
theorem delete_session_idem (s : SessionsStore) (t : String) :
    delete_session (delete_session s t) t = delete_session s t := by
  unfold delete_session
  rw [List.filter_filter]
  simp

/-- C1: a SignIn whose (username, password) pair resolves to no identity
returns `Failure` with empty `user_uuid` and empty `session_token`, the
whole service state (in particular the Session Store) is unchanged, and
the only store call performed is the user lookup — no session is ever
created on failed authentication. -/
theorem sign_in_failed_auth_no_session (st : AuthState) (u p tok : String)
    (h : get_user_uuid st.users_service u p = none) :
    sign_in st { username := u, password := p } tok =
      (Except.ok { status_code := StatusCode.failure, user_uuid := "",
                   session_token := "" },
       st,
       [StoreEvent.getUserUuid u p]) := by
  simp [sign_in, h]

/-- Witness for C1: signing in with an unregistered username against the
demo state fails without touching the Session Store. -/
theorem sign_in_failed_auth_no_session_witness :
    get_user_uuid demoState.users_service "bob" "pw" = none ∧
    sign_in demoState { username := "bob", password := "pw" } "t1" =
      (Except.ok { status_code := StatusCode.failure, user_uuid := "",
                   session_token := "" },
       demoState,
       [StoreEvent.getUserUuid "bob" "pw"]) :=
  ⟨by decide, sign_in_failed_auth_no_session demoState "bob" "pw" "t1" (by decide)⟩

/-- C2: a SignIn whose (username, password) pair resolves to an identity
calls `CreateSession` with that identity, and returns `Success` with
`user_uuid` equal to the resolved identity and `session_token` equal to
the token returned by `CreateSession`; both are non-empty (identities
are freshly generated identifiers, tokens are freshly generated random
strings, neither is empty). -/
theorem sign_in_success_creates_session (st : AuthState) (u p tok uuid : String)
    (hwf : ∀ r ∈ st.users_service, r.uuid ≠ "")
    (htok : tok ≠ "")
    (h : get_user_uuid st.users_service u p = some uuid) :
    sign_in st { username := u, password := p } tok =
      (Except.ok { status_code := StatusCode.success, user_uuid := uuid,
                   session_token := tok },
       { st with sessions_service := (tok, uuid) :: st.sessions_service },
       [StoreEvent.getUserUuid u p, StoreEvent.createSession uuid]) ∧
    uuid ≠ "" ∧ tok ≠ "" := by
  refine ⟨by simp [sign_in, h, create_session], ?_, htok⟩
  obtain ⟨r, hm, _, _, hq⟩ := get_user_uuid_some _ _ _ _ h
  exact hq ▸ hwf r hm

/-- Witness for C2: signing in as the registered demo user creates a
session and returns the identity and the fresh token. -/
theorem sign_in_success_creates_session_witness :
    sign_in demoState { username := "alice", password := "pw1" } "t1" =
      (Except.ok { status_code := StatusCode.success, user_uuid := "uuid-alice",
                   session_token := "t1" },
       { demoState with
           sessions_service := ("t1", "uuid-alice") :: demoState.sessions_service },
       [StoreEvent.getUserUuid "alice" "pw1",
        StoreEvent.createSession "uuid-alice"]) ∧
    "uuid-alice" ≠ "" ∧ "t1" ≠ "" :=
  sign_in_success_creates_session demoState "alice" "pw1" "t1" "uuid-alice"
    (by decide) (by decide) (by decide)

/-- C3: a SignUp calls `CreateUser` exactly once, returns `Success`
exactly when `CreateUser` returned `Ok`, and returns `Failure` exactly
when it returned any `Err`; the `SignUpResponse` type carries only a
status code, so no identity and no token is returned either way. -/
theorem sign_up_status_matches_create_user (st : AuthState) (u p fresh : String) :
    (sign_up st { username := u, password := p } fresh).2.2 =
      [StoreEvent.createUser u p] ∧
    ((sign_up st { username := u, password := p } fresh).1 =
        Except.ok { status_code := StatusCode.success } ↔
      (create_user st.users_service u p fresh).isOk = true) ∧
    ((sign_up st { username := u, password := p } fresh).1 =
        Except.ok { status_code := StatusCode.failure } ↔
      (create_user st.users_service u p fresh).isOk = false) := by
  cases hc : create_user st.users_service u p fresh with
  | ok users2 => simp [sign_up, hc, Except.isOk, Except.toBool]
  | error e => simp [sign_up, hc, Except.isOk, Except.toBool]

/-- C4: a SignOut, for every supplied token (empty, unknown or live),
calls `DeleteSession` with the token and returns `Success`; there is no
failure path. -/
theorem sign_out_always_success (st : AuthState) (token : String) :
    sign_out st { session_token := token } =
      (Except.ok { status_code := StatusCode.success },
       { st with
           sessions_service := delete_session st.sessions_service token },
       [StoreEvent.deleteSession token]) := rfl

/-- C5: SignOut is idempotent: for a currently valid token, both the
first and the second SignOut return `Success`; after the first call the
Session Store holds no live session for the token, and the second
deletion is a no-op on the state. -/
theorem sign_out_idempotent (st : AuthState) (token : String)
    (_h : hasLiveSession st.sessions_service token = true) :
    (sign_out st { session_token := token }).1 =
      Except.ok { status_code := StatusCode.success } ∧
    hasLiveSession
      (sign_out st { session_token := token }).2.1.sessions_service token = false ∧
    (sign_out (sign_out st { session_token := token }).2.1
        { session_token := token }).1 =
      Except.ok { status_code := StatusCode.success } ∧
    (sign_out (sign_out st { session_token := token }).2.1
        { session_token := token }).2.1 =
      (sign_out st { session_token := token }).2.1 := by
  refine ⟨rfl, hasLiveSession_delete_session _ _, rfl, ?_⟩
  simp [sign_out, delete_session_idem]

/-- Witness for C5: signing out of the live demo session twice succeeds
both times and the second call changes nothing. -/
theorem sign_out_idempotent_witness :
    hasLiveSession demoState.sessions_service "tokA" = true ∧
    ((sign_out demoState { session_token := "tokA" }).1 =
        Except.ok { status_code := StatusCode.success } ∧
      hasLiveSession
        (sign_out demoState { session_token := "tokA" }).2.1.sessions_service
          "tokA" = false ∧
      (sign_out (sign_out demoState { session_token := "tokA" }).2.1
          { session_token := "tokA" }).1 =
        Except.ok { status_code := StatusCode.success } ∧
      (sign_out (sign_out demoState { session_token := "tokA" }).2.1
          { session_token := "tokA" }).2.1 =
        (sign_out demoState { session_token := "tokA" }).2.1) :=
  ⟨by decide, sign_out_idempotent demoState "tokA" (by decide)⟩

/-- C6: the SignIn failure response leaks no sub-reason: a request with
an unknown username and a request with a registered username but a wrong
password produce identical responses, namely `Failure` with empty
`user_uuid` and empty `session_token`. -/
theorem sign_in_failure_indistinguishable (st : AuthState)
    (u1 p1 u2 p2 tok1 tok2 : String)
    (h1 : ∀ r ∈ st.users_service, r.username ≠ u1)
    (_h2 : ∃ r ∈ st.users_service, r.username = u2)
    (h3 : ∀ r ∈ st.users_service, r.username = u2 → r.password ≠ p2) :
    (sign_in st { username := u1, password := p1 } tok1).1 =
      (sign_in st { username := u2, password := p2 } tok2).1 ∧
    (sign_in st { username := u1, password := p1 } tok1).1 =
      Except.ok { status_code := StatusCode.failure, user_uuid := "",
                  session_token := "" } := by
  have e1 : get_user_uuid st.users_service u1 p1 = none :=
    get_user_uuid_eq_none _ _ _ (fun r hm hu => absurd hu (h1 r hm))
  have e2 : get_user_uuid st.users_service u2 p2 = none :=
    get_user_uuid_eq_none _ _ _ h3
  constructor <;> simp [sign_in, e1, e2]

/-- Witness for C6: against the demo state, an unknown username and the
registered username with a wrong password give the same failure
response. -/
theorem sign_in_failure_indistinguishable_witness :
    (sign_in demoState { username := "bob", password := "x" } "t1").1 =
      (sign_in demoState { username := "alice", password := "wrong" } "t2").1 ∧
    (sign_in demoState { username := "bob", password := "x" } "t1").1 =
      Except.ok { status_code := StatusCode.failure, user_uuid := "",
                  session_token := "" } :=
  sign_in_failure_indistinguishable demoState "bob" "x" "alice" "wrong" "t1" "t2"
    (by decide) (by decide) (by decide)

/-- C7: every code path of the three handlers ends in `Ok`: no request
to sign-in, sign-up or sign-out ever produces a transport-level fault;
store outcomes are recovered inside the Orchestrator. -/
theorem handlers_never_transport_fault (st : AuthState)
    (u p fresh tok token : String) :
    (∃ resp, (sign_in st { username := u, password := p } tok).1 =
      Except.ok resp) ∧
    (∃ resp, (sign_up st { username := u, password := p } fresh).1 =
      Except.ok resp) ∧
    (∃ resp, (sign_out st { session_token := token }).1 = Except.ok resp) := by
  refine ⟨?_, ?_, ⟨_, rfl⟩⟩
  · cases h : get_user_uuid st.users_service u p <;> simp [sign_in, h]
  · cases h : create_user st.users_service u p fresh <;> simp [sign_up, h]

/-- C8: `CreateUser` keeps the username-uniqueness invariant: on a store
whose usernames are pairwise distinct it fails with `UsernameExists`
whenever a record with the same username is present, and whenever it
succeeds the resulting store again has pairwise-distinct usernames (the
presence check and the insertion happen in one atomic store
operation). -/
theorem create_user_preserves_unique_usernames (s : UsersStore)
    (u p fresh : String) (hu : usernamesUnique s) :
    ((∃ r ∈ s, r.username = u) →
      create_user s u p fresh = Except.error "UsernameExists") ∧
    (∀ s2, create_user s u p fresh = Except.ok s2 → usernamesUnique s2) := by
  constructor
  · rintro ⟨r, hm, hr⟩
    have hany : s.any (fun r => r.username == u) = true :=
      List.any_eq_true.mpr ⟨r, hm, by simp [hr]⟩
    simp [create_user, hany]
  · intro s2 hok
    by_cases hany : s.any (fun r => r.username == u) = true
    · simp [create_user, hany] at hok
    · simp only [create_user, hany, Bool.false_eq_true, if_false,
        Except.ok.injEq] at hok
      subst hok
      unfold usernamesUnique at hu ⊢
      simp only [List.map_cons, List.nodup_cons]
      refine ⟨?_, hu⟩
      intro hmem
      obtain ⟨r, hm, hr⟩ := List.mem_map.mp hmem
      exact hany (List.any_eq_true.mpr ⟨r, hm, by simp [hr]⟩)

/-- Witness for C8: instantiated on the demo store, for the already
registered username. -/
theorem create_user_preserves_unique_usernames_witness :
    ((∃ r ∈ demoUsers, r.username = "alice") →
      create_user demoUsers "alice" "x" "u9" = Except.error "UsernameExists") ∧
    (∀ s2, create_user demoUsers "alice" "x" "u9" = Except.ok s2 →
      usernamesUnique s2) :=
  create_user_preserves_unique_usernames demoUsers "alice" "x" "u9" (by decide)

/-- C9: on a store with unique usernames, `GetUserIdentity` returns a
stored identity exactly when a credential record exists for the supplied
username whose stored password equals the supplied password by plain
string equality, and the returned identity is that record's. -/
theorem get_user_identity_correct (s : UsersStore) (u p id : String)
    (hu : usernamesUnique s) :
    get_user_uuid s u p = some id ↔
      ∃ r ∈ s, r.username = u ∧ r.password = p ∧ r.uuid = id := by
  constructor
  · exact get_user_uuid_some s u p id
  · rintro ⟨r, hm, hru, hrp, hrid⟩
    unfold get_user_uuid
    cases hf : s.find? (fun x => x.username == u) with
    | none =>
        exfalso
        have := List.find?_eq_none.mp hf r hm
        simp [hru] at this
    | some r0 =>
        have hm0 : r0 ∈ s := List.mem_of_find?_eq_some hf
        have hu0 : r0.username = u := by simpa using List.find?_some hf
        have hrr : r0 = r :=
          List.inj_on_of_nodup_map hu hm0 hm (by rw [hu0, hru])
        subst hrr
        simp [hrp, hrid]

/-- Witness for C9: the demo user's identity is returned exactly for the
matching credential record. -/
theorem get_user_identity_correct_witness :
    get_user_uuid demoUsers "alice" "pw1" = some "uuid-alice" ↔
      ∃ r ∈ demoUsers, r.username = "alice" ∧ r.password = "pw1" ∧
        r.uuid = "uuid-alice" :=
  get_user_identity_correct demoUsers "alice" "pw1" "uuid-alice" (by decide)

/-- C10: frame property of the Orchestrator: sign-in leaves the User
Store unchanged and its only User-Store call is the lookup; sign-up
leaves the Session Store unchanged and performs no Session-Store call;
sign-out leaves the User Store unchanged and performs no User-Store
call. -/
theorem orchestrator_frame_property (st : AuthState)
    (u p tok fresh token : String) :
    (sign_in st { username := u, password := p } tok).2.1.users_service =
      st.users_service ∧
    ((sign_in st { username := u, password := p } tok).2.2.filter
        isUserStoreEvent) = [StoreEvent.getUserUuid u p] ∧
    (sign_up st { username := u, password := p } fresh).2.1.sessions_service =
      st.sessions_service ∧
    ((sign_up st { username := u, password := p } fresh).2.2.filter
        isSessionStoreEvent) = [] ∧
    (sign_out st { session_token := token }).2.1.users_service =
      st.users_service ∧
    ((sign_out st { session_token := token }).2.2.filter
        isUserStoreEvent) = [] := by
  refine ⟨?_, ?_, ?_, ?_, rfl, rfl⟩
  · cases h : get_user_uuid st.users_service u p <;> simp [sign_in, h]
  · cases h : get_user_uuid st.users_service u p <;>
      simp [sign_in, h, isUserStoreEvent]
  · cases h : create_user st.users_service u p fresh <;> simp [sign_up, h]
  · cases h : create_user st.users_service u p fresh <;>
      simp [sign_up, h, isSessionStoreEvent]

end RustAuth
